import Mathlib

/-!
Shallow embedding of the OIDC middleware from `echo-v4-middleware/oidc/oidc.go`
(package `oidc` of XenitAB/pkg).

Go strings are modelled as lists of characters (`Str`), since the code slices
and compares them positionally.  Network effects (the discovery-document GET,
`jwk.Fetch` of the JWKS endpoint, `jws.ParseString` / `jwt.ParseString` from
the jwx library) are modelled as explicit inputs: a fetch is a value describing
the response the network would deliver, and a token string is a value carrying
the result of parsing it.  Panics at configuration time are modelled as
`Except.error`.  Time is modelled as integers (instants in seconds);
`time.Duration` values become integer second counts.
-/

/-- Go `string`, as the sequence of its symbols. -/
abbrev Str := List Char

/-- Classified errors produced by the middleware (the `fmt.Errorf` /
`ErrJWTMissing` values in the source, by their meaning). -/
inductive OidcError where
  /-- The error `ErrJWTMissing`: no extractor found a token. -/
  | tokenMissing
  /-- Error of `jws.ParseString`: the token's header is unparsable. -/
  | malformedToken
  /-- Error "more than one signature in token". -/
  | ambiguousSignature
  /-- Error "token headers nil". -/
  | headersNil
  /-- Error "token header does not contain key id (kid)". -/
  | missingKeyID
  /-- Error "token header does not contain type (typ)". -/
  | missingTokenType
  /-- Error "token type %q required, but received: %s". -/
  | tokenTypeMismatch
  /-- Error "Unable to fetch keys from %q" (network / timeout failure of `jwk.Fetch`). -/
  | fetchFailed
  /-- Error "unable to find key %q" (after the one refresh retry). -/
  | keyNotFound
  /-- Error of `jwt.ParseString`: signature does not verify with the resolved key
  (or the payload is unparsable). -/
  | invalidSignature
  /-- Error "token has expired". -/
  | tokenExpired
  /-- Error "required issuer %q was not found". -/
  | issuerMismatch
  /-- Error "required audience %q was not found". -/
  | audienceMismatch
deriving DecidableEq, Repr

/-- Protected headers of one JWS signature (`jws.Headers`); `KeyID()` and
`Type()` return `""` when the field is absent, so absence is the empty list. -/
structure JwsHeaders where
  keyID : Str
  typ : Str
deriving DecidableEq, Repr

/-- One signature block of a JWS message; `ProtectedHeaders()` may be nil. -/
structure JwsSignature where
  protectedHeaders : Option JwsHeaders
deriving DecidableEq, Repr

/-- A parsed JWS message (`jws.Message`): its list of signature blocks. -/
structure JwsMessage where
  signatures : List JwsSignature
deriving DecidableEq, Repr

/-- The claim set of a verified token (`jwt.Token`): the fields the middleware
reads.  `expiration` is an instant in seconds. -/
structure TokenClaims where
  expiration : Int
  issuer : Str
  audience : List Str
deriving DecidableEq, Repr

/-- A raw token string, abstracted by what the jwx parsers would make of it:
either `jws.ParseString` fails on it, or it parses to a message `msg`, and
`jwtResult k` is what `jwt.ParseString` with key set `{k}` returns for it
(`none` = error, i.e. the signature does not verify with `k` or the payload is
bad; `some claims` = verified token with those claims). -/
inductive TokenString where
  | unparsable
  | parsed (msg : JwsMessage) (jwtResult : Str → Option TokenClaims)

/-- What `jwt.ParseString(auth, jwt.WithKeySet(ks))` with key set of one key returns, given the abstraction. -/
def TokenString.jwtParse : TokenString → Str → Option TokenClaims
  | .unparsable, _ => none
  | .parsed _ f, k => f k

/-- Function `getHeadersFromTokenString`: parse, require exactly one signature block,
require non-nil protected headers. -/
def getHeadersFromTokenString : TokenString → Except OidcError JwsHeaders
  | .unparsable => .error .malformedToken
  | .parsed msg _ =>
    match msg.signatures with
    | [sig] =>
      match sig.protectedHeaders with
      | none => .error .headersNil
      | some headers => .ok headers
    | _ => .error .ambiguousSignature

/-- Function `getKeyIDFromTokenString`: the `kid` header, required non-empty. -/
def getKeyIDFromTokenString (tokenString : TokenString) : Except OidcError Str :=
  match getHeadersFromTokenString tokenString with
  | .error e => .error e
  | .ok headers =>
    if headers.keyID = [] then .error .missingKeyID else .ok headers.keyID

/-- Function `getTokenTypeFromTokenString`: the `typ` header, required non-empty. -/
def getTokenTypeFromTokenString (tokenString : TokenString) : Except OidcError Str :=
  match getHeadersFromTokenString tokenString with
  | .error e => .error e
  | .ok headers =>
    if headers.typ = [] then .error .missingTokenType else .ok headers.typ

/-- The key cache (`keyHandler`): a key is modelled by its `kid`, a key set by
the list of its keys.  The mutex is not modelled: each call acts on an explicit
state. -/
structure KeyHandler where
  keySet : List Str
deriving DecidableEq, Repr

/-- Lookup `jwk.Set.LookupKeyID`: first key of the set with the wanted kid. -/
def lookupKeyID (keySet : List Str) (keyID : Str) : Option Str :=
  keySet.find? (fun k => k = keyID)

/-- Method `keyHandler.updateKeySet`: fetch the JWKS (`fetch` is what `jwk.Fetch`
would deliver; `none` = network/timeout error) and replace the cached set
wholesale. -/
def KeyHandler.updateKeySet (h : KeyHandler) (fetch : Option (List Str)) :
    Except OidcError KeyHandler :=
  match fetch with
  | none => .error .fetchFailed
  | some keySet => .ok { h with keySet := keySet }

/-- Constructor `newKeyHandler`: build the handler and do the initial `updateKeySet`. -/
def newKeyHandler (fetch : Option (List Str)) : Except OidcError KeyHandler :=
  KeyHandler.updateKeySet { keySet := [] } fetch

/-- The `retry = true` instance of `keyHandler.getByKeyID`, written out
separately so the one-shot recursion of the source (which only ever recurses
from `retry = false` into `retry = true`) becomes a plain call; the lemma
`getByKeyID_true_eq_retry` below proves the inlining faithful.  Returns the
lookup result, the final cache state, and the number of `updateKeySet` calls
made. -/
def KeyHandler.getByKeyIDRetry (h : KeyHandler) (keyID : Str) :
    Except OidcError Str × KeyHandler × Nat :=
  match lookupKeyID h.keySet keyID with
  | some key => (.ok key, h, 0)
  | none => (.error .keyNotFound, h, 0)

/-- Method `keyHandler.getByKeyID`, with its one-shot retry.  Returns the lookup
result, the final cache state, and the number of `updateKeySet` calls made
(for stating the refresh bound).  `fetch` is what `jwk.Fetch` would deliver
during this call; the recursive call `h.getByKeyID(keyID, true)` of the
source is `getByKeyIDRetry`. -/
def KeyHandler.getByKeyID (h : KeyHandler) (fetch : Option (List Str))
    (keyID : Str) (retry : Bool) : Except OidcError Str × KeyHandler × Nat :=
  match lookupKeyID h.keySet keyID with
  | some key => (.ok key, h, 0)
  | none =>
    if retry then
      (.error .keyNotFound, h, 0)
    else
      match h.updateKeySet fetch with
      | .error _ => (.error .fetchFailed, h, 1)
      | .ok h2 =>
        let r := KeyHandler.getByKeyIDRetry h2 keyID
        (r.1, r.2.1, r.2.2 + 1)

/-- The validation-relevant configuration fields (`OIDCConfig`); durations are
integer second counts, empty list = unset string. -/
structure OIDCConfig where
  issuer : Str
  requiredTokenType : Str
  requiredAudience : Str
  allowedTokenDrift : Int
deriving DecidableEq, Repr

/-- Method `OIDCConfig.parseToken`.  Besides the result it reports whether key
resolution (`keyHandler.getByKeyID`) was reached.  `now` models `time.Now()`;
`Round(0)` only strips the monotonic clock reading and is a numeric no-op. -/
def OIDCConfig.parseToken (config : OIDCConfig) (h : KeyHandler)
    (fetch : Option (List Str)) (auth : TokenString) (now : Int) :
    Except OidcError TokenClaims × Bool :=
  match getKeyIDFromTokenString auth with
  | .error e => (.error e, false)
  | .ok keyID =>
    let typeCheck : Except OidcError Unit :=
      if config.requiredTokenType ≠ [] then
        match getTokenTypeFromTokenString auth with
        | .error e => .error e
        | .ok tokenType =>
          if tokenType ≠ config.requiredTokenType then .error .tokenTypeMismatch
          else .ok ()
      else .ok ()
    match typeCheck with
    | .error e => (.error e, false)
    | .ok _ =>
      match (KeyHandler.getByKeyID h fetch keyID false).1 with
      | .error e => (.error e, true)
      | .ok key =>
        match auth.jwtParse key with
        | none => (.error .invalidSignature, true)
        | some token =>
          -- token.Expiration().Round(0).Add(-config.AllowedTokenDrift).Before(time.Now())
          let tokenExpired := token.expiration - config.allowedTokenDrift < now
          if tokenExpired then (.error .tokenExpired, true)
          else if config.issuer ≠ token.issuer then (.error .issuerMismatch, true)
          else if config.requiredAudience ≠ [] then
            let audienceFound := token.audience.foldl
              (fun acc audience =>
                if audience = config.requiredAudience then true else acc) false
            if ¬audienceFound then (.error .audienceMismatch, true)
            else (.ok token, true)
          else (.ok token, true)

/-- The request, abstracted by the accessors the extractors use.
`header n` is `Request().Header.Get(n)` (empty when absent), `queryParam` is
`c.QueryParam`, `pathParam` is `c.Param`, `cookie` is `c.Cookie` (an error
when absent, hence `Option`), `formValue` is `c.FormValue`. -/
structure Request where
  header : Str → Str
  queryParam : Str → Str
  pathParam : Str → Str
  cookie : Str → Option Str
  formValue : Str → Str

/-- Extractor `jwtFromHeader`: succeed when the value is longer than the scheme plus one
symbol and starts with the scheme; drop the scheme and one separator symbol.
`none` models `ErrJWTMissing`. -/
def jwtFromHeader (header : Str) (authScheme : Str) (req : Request) :
    Option Str :=
  let auth := req.header header
  let l := authScheme.length
  if auth.length > l + 1 ∧ auth.take l = authScheme then some (auth.drop (l + 1))
  else none

/-- Extractor `jwtFromQuery`: the query parameter, required non-empty. -/
def jwtFromQuery (param : Str) (req : Request) : Option Str :=
  let token := req.queryParam param
  if token = [] then none else some token

/-- Extractor `jwtFromParam`: the path parameter, required non-empty. -/
def jwtFromParam (param : Str) (req : Request) : Option Str :=
  let token := req.pathParam param
  if token = [] then none else some token

/-- Extractor `jwtFromCookie`: the named cookie's value, if the cookie exists. -/
def jwtFromCookie (name : Str) (req : Request) : Option Str :=
  match req.cookie name with
  | none => none
  | some value => some value

/-- Extractor `jwtFromForm`: the form field, required non-empty. -/
def jwtFromForm (name : Str) (req : Request) : Option Str :=
  let field := req.formValue name
  if field = [] then none else some field

/-- One compiled extractor (`oidcExtractor`), as the closed set of source
kinds the `switch` in `OIDCWithConfig` recognises. -/
inductive ExtractorSpec where
  | query (name : Str)
  | param (name : Str)
  | cookie (name : Str)
  | form (name : Str)
  | header (name : Str) (authScheme : Str)
deriving DecidableEq, Repr

/-- Run one compiled extractor on a request. -/
def runExtractor : ExtractorSpec → Request → Option Str
  | .query name, req => jwtFromQuery name req
  | .param name, req => jwtFromParam name req
  | .cookie name, req => jwtFromCookie name req
  | .form name, req => jwtFromForm name req
  | .header name authScheme, req => jwtFromHeader name authScheme req

/-- The extractor-compilation loop of `OIDCWithConfig`: each `source:name`
entry of the token-lookup list (already split into pairs) is dispatched on its
source kind; an unrecognised kind falls through the `switch` and appends
nothing. -/
def compileExtractors (authScheme : Str) :
    List (Str × Str) → List ExtractorSpec
  | [] => []
  | (kind, name) :: rest =>
    let tail := compileExtractors authScheme rest
    if kind = "query".toList then .query name :: tail
    else if kind = "param".toList then .param name :: tail
    else if kind = "cookie".toList then .cookie name :: tail
    else if kind = "form".toList then .form name :: tail
    else if kind = "header".toList then .header name authScheme :: tail
    else tail

/-- The request-time extraction loop, on the per-extractor results, threading
the Go loop's `(auth, err)` state (initially `("" , nil)`).  Besides the final
`auth` and `err` it returns how many extractors were consulted. -/
def extractLoopAux (auth : Str) (err : Option OidcError) :
    List (Option Str) → Str × Option OidcError × Nat
  | [] => (auth, err, 0)
  | r :: rest =>
    match r with
    | some token => (token, none, 1)
    | none =>
      let next := extractLoopAux [] (some .tokenMissing) rest
      (next.1, next.2.1, next.2.2 + 1)

/-- The extraction loop started from the zero values of `auth` and `err`. -/
def extractLoop (results : List (Option Str)) : Str × Option OidcError × Nat :=
  extractLoopAux [] none results

/-- The request handler returned by `OIDCWithConfig` (Skipper, BeforeFunc and
the success/error callbacks elided: the outcome below is what they are handed).
`tokenOf` maps the extracted raw string to its parse abstraction. -/
def handleRequest (config : OIDCConfig) (h : KeyHandler)
    (fetch : Option (List Str)) (specs : List ExtractorSpec) (req : Request)
    (tokenOf : Str → TokenString) (now : Int) : Except OidcError TokenClaims :=
  let r := extractLoop (specs.map (fun s => runExtractor s req))
  match r.2.1 with
  | some e => .error e
  | none => (config.parseToken h fetch (tokenOf r.1) now).1

/-- Go `strings.HasSuffix`. -/
def hasSuffix (s suffix : Str) : Bool :=
  suffix.length ≤ s.length ∧ s.drop (s.length - suffix.length) = suffix

/-- Go `strings.TrimSuffix`. -/
def trimSuffix (s suffix : Str) : Str :=
  if hasSuffix s suffix then s.take (s.length - suffix.length) else s

/-- The well-known discovery path. -/
def wellKnownPath : Str := "/.well-known/openid-configuration".toList

/-- Function `getDiscoveryUriFromIssuer`. -/
def getDiscoveryUriFromIssuer (issuer : Str) : Str :=
  trimSuffix issuer "/".toList ++ wellKnownPath

/-- The body of the discovery-document response, abstracted by what
`json.Unmarshal` into the `{ jwks_uri string }` struct would make of it:
unparsable JSON, or a JSON object with its `jwks_uri` field (empty when
absent) and the remaining fields. -/
inductive DiscoveryBody where
  | invalidJson
  | json (jwksUri : Str) (otherFields : List (Str × Str))
deriving DecidableEq, Repr

/-- Classified failures of the discovery fetch. -/
inductive FetchError where
  /-- Request creation, the HTTP call (timeout included), or reading or
  closing the body failed. -/
  | network
  /-- Unmarshalling failed (`json.Unmarshal`). -/
  | invalidJson
  /-- Error "JwksURI is empty". -/
  | emptyJwksUri
deriving DecidableEq, Repr

/-- Function `getJwksUriFromDiscoveryUri`, on the response the network would deliver
for the discovery URI (`Except.error` = the timeout-bounded HTTP exchange
failed). -/
def getJwksUriFromDiscoveryUri (resp : Except Unit DiscoveryBody) :
    Except FetchError Str :=
  match resp with
  | .error _ => .error .network
  | .ok body =>
    match body with
    | .invalidJson => .error .invalidJson
    | .json jwksUri _ =>
      if jwksUri = [] then .error .emptyJwksUri else .ok jwksUri

/-- The configuration surface of `OIDCWithConfig` (callback fields elided;
durations as integer second counts; the token-lookup string already split into
`source:name` pairs). -/
structure OIDCSetupConfig where
  contextKey : Str
  tokenLookup : List (Str × Str)
  authScheme : Str
  issuer : Str
  discoveryUri : Str
  jwksUri : Str
  requiredTokenType : Str
  requiredAudience : Str
  jwksFetchTimeout : Int
  allowedTokenDrift : Int

/-- Configuration-time fatal failures: the three `panic` sites of
`OIDCWithConfig`.  A separate type from the per-request `OidcError`. -/
inductive ConfigPanic where
  /-- Panic "echo: oidc middleware requires Issuer". -/
  | missingIssuer
  /-- Panic "echo: oidc middleware unable to fetch JwksUri from DiscoveryUri". -/
  | jwksUriFetchFailed
  /-- Panic "echo: oidc middleware unable to initialize keyHandler". -/
  | keyHandlerInitFailed
deriving DecidableEq, Repr

/-- The defaulting tail of `OIDCWithConfig` after the `JwksUri` is settled,
then the `newKeyHandler` initialisation.  `jwksFetch` is what `jwk.Fetch`
would deliver per JWKS URI. -/
def finishSetup (config : OIDCSetupConfig)
    (jwksFetch : Str → Option (List Str)) :
    Except ConfigPanic (OIDCSetupConfig × KeyHandler) :=
  let config :=
    { config with
      jwksFetchTimeout := if config.jwksFetchTimeout = 0 then 5 else config.jwksFetchTimeout
      allowedTokenDrift := if config.allowedTokenDrift = 0 then 10 else config.allowedTokenDrift
      contextKey := if config.contextKey = [] then "user".toList else config.contextKey
      tokenLookup :=
        if config.tokenLookup = [] then [("header".toList, "Authorization".toList)]
        else config.tokenLookup
      authScheme := if config.authScheme = [] then "Bearer".toList else config.authScheme }
  match newKeyHandler (jwksFetch config.jwksUri) with
  | .error _ => .error .keyHandlerInitFailed
  | .ok keyHandler => .ok (config, keyHandler)

/-- The configuration phase of `OIDCWithConfig`: validate the issuer, derive
the discovery URI, resolve the JWKS URI through the discovery document when
not overridden, apply defaults and initialise the key handler.  Panics are
`Except.error`; on success the middleware is ready, modelled by the resolved
configuration and the initialised key cache.  `discoveryHttp` is the network's
response per discovery URI. -/
def setupOIDC (config : OIDCSetupConfig)
    (discoveryHttp : Str → Except Unit DiscoveryBody)
    (jwksFetch : Str → Option (List Str)) :
    Except ConfigPanic (OIDCSetupConfig × KeyHandler) :=
  if config.issuer = [] then .error .missingIssuer
  else
    let config :=
      if config.discoveryUri = [] then
        { config with discoveryUri := getDiscoveryUriFromIssuer config.issuer }
      else config
    if config.jwksUri = [] then
      match getJwksUriFromDiscoveryUri (discoveryHttp config.discoveryUri) with
      | .error _ => .error .jwksUriFetchFailed
      | .ok jwksUri => finishSetup { config with jwksUri := jwksUri } jwksFetch
    else finishSetup config jwksFetch

/-! ## Helper lemmas -/

/-- The separated `retry = true` body is exactly `getByKeyID` at `retry = true`:
the source's recursive call is modelled faithfully. -/
theorem getByKeyID_true_eq_retry (h : KeyHandler) (fetch : Option (List Str))
    (keyID : Str) :
    KeyHandler.getByKeyID h fetch keyID true = KeyHandler.getByKeyIDRetry h keyID := by
  unfold KeyHandler.getByKeyID KeyHandler.getByKeyIDRetry
  cases lookupKeyID h.keySet keyID <;> simp

/-- The audience loop of `parseToken` computes membership of the required
audience in the audience list. -/
theorem audienceFold_eq_mem (audiences : List Str) (required : Str) (b : Bool) :
    audiences.foldl (fun acc audience => if audience = required then true else acc) b
      = (b || decide (required ∈ audiences)) := by
  induction audiences generalizing b with
  | nil => simp
  | cons a t ih =>
    rw [List.foldl_cons, ih]
    by_cases ha : a = required
    · subst ha; simp
    · have ha2 : ¬required = a := fun hh => ha hh.symm
      simp [ha, ha2]

/-- `parseToken` propagates a key-id extraction failure and never reaches key
resolution. -/
theorem parseToken_keyID_error (config : OIDCConfig) (h : KeyHandler)
    (fetch : Option (List Str)) (auth : TokenString) (now : Int) (e : OidcError)
    (herr : getKeyIDFromTokenString auth = .error e) :
    config.parseToken h fetch auth now = (.error e, false) := by
  unfold OIDCConfig.parseToken
  rw [herr]

/-- A token with two or more signature blocks fails header extraction with the
ambiguous-signature error. -/
theorem getHeaders_multi_sig (msg : JwsMessage)
    (jwtResult : Str → Option TokenClaims) (hmulti : 2 ≤ msg.signatures.length) :
    getHeadersFromTokenString (.parsed msg jwtResult) = .error .ambiguousSignature := by
  obtain ⟨sigs⟩ := msg
  simp only at hmulti
  rcases sigs with _ | ⟨s1, _ | ⟨s2, rest⟩⟩
  · simp at hmulti
  · simp at hmulti
  · rfl

/-! ## Claim theorems -/

/-- C1: the claim says a token is expired exactly when
`expiration + allowedDrift` is strictly before now, so that
`expiration = now - 5s` is accepted under a 10s drift.  The code computes
`expiration - allowedDrift < now` (it subtracts the drift,
`Add(-config.AllowedTokenDrift)`), contradicting the `AllowedTokenDrift`
field's own doc comment ("adds the duration to the token expiration"): at
`now = 100`, a token expiring at `95 = now - 5s` is rejected with
`TokenExpired` under drift 10, and even a token expiring in the future at
`105 = now + 5s` is rejected under drift 10 — the drift shrinks validity,
it never extends it. -/
theorem c1_drift_subtracted_not_added :
    (OIDCConfig.parseToken
        { issuer := "iss".toList, requiredTokenType := [], requiredAudience := [],
          allowedTokenDrift := 10 }
        { keySet := ["k1".toList] } none
        (.parsed
          { signatures :=
              [{ protectedHeaders := some { keyID := "k1".toList, typ := "JWT".toList } }] }
          (fun _ => some { expiration := 95, issuer := "iss".toList, audience := [] }))
        100
      = (.error .tokenExpired, true))
    ∧ (OIDCConfig.parseToken
        { issuer := "iss".toList, requiredTokenType := [], requiredAudience := [],
          allowedTokenDrift := 10 }
        { keySet := ["k1".toList] } none
        (.parsed
          { signatures :=
              [{ protectedHeaders := some { keyID := "k1".toList, typ := "JWT".toList } }] }
          (fun _ => some { expiration := 105, issuer := "iss".toList, audience := [] }))
        100
      = (.error .tokenExpired, true)) :=
  ⟨rfl, rfl⟩

/-- C2: for a key id absent from the cached set, `getByKeyID` performs exactly
one refresh, replaces the cached set wholesale by the fetched one, retries the
lookup once — returning the key if the refreshed set contains it and failing
with the key-not-found error otherwise — and never performs a second refresh
in any call. -/
theorem c2_cache_miss_single_refresh (h : KeyHandler) (ks : List Str)
    (keyID : Str) (hmiss : lookupKeyID h.keySet keyID = none) :
    (KeyHandler.getByKeyID h (some ks) keyID false).2.2 = 1
    ∧ (KeyHandler.getByKeyID h (some ks) keyID false).2.1.keySet = ks
    ∧ (∀ key, lookupKeyID ks keyID = some key →
        (KeyHandler.getByKeyID h (some ks) keyID false).1 = .ok key)
    ∧ (lookupKeyID ks keyID = none →
        (KeyHandler.getByKeyID h (some ks) keyID false).1 = .error .keyNotFound)
    ∧ (∀ (h2 : KeyHandler) (fetch : Option (List Str)) (retry : Bool),
        (KeyHandler.getByKeyID h2 fetch keyID retry).2.2 ≤ 1) := by
  have hred : KeyHandler.getByKeyID h (some ks) keyID false
      = ((KeyHandler.getByKeyIDRetry { keySet := ks } keyID).1,
         (KeyHandler.getByKeyIDRetry { keySet := ks } keyID).2.1,
         (KeyHandler.getByKeyIDRetry { keySet := ks } keyID).2.2 + 1) := by
    unfold KeyHandler.getByKeyID
    rw [hmiss]
    rfl
  refine ⟨?_, ?_, ?_, ?_, ?_⟩
  · rw [hred]
    unfold KeyHandler.getByKeyIDRetry
    rcases hks : lookupKeyID ks keyID with _ | key <;> simp [hks]
  · rw [hred]
    unfold KeyHandler.getByKeyIDRetry
    rcases hks : lookupKeyID ks keyID with _ | key <;> simp [hks]
  · intro key hkey
    rw [hred]
    unfold KeyHandler.getByKeyIDRetry
    simp [hkey]
  · intro hkey
    rw [hred]
    unfold KeyHandler.getByKeyIDRetry
    simp [hkey]
  · intro h2 fetch retry
    unfold KeyHandler.getByKeyID
    rcases hlk : lookupKeyID h2.keySet keyID with _ | key
    · simp only [hlk]
      cases retry
      · rcases fetch with _ | ks2
        · simp [KeyHandler.updateKeySet]
        · simp only [KeyHandler.updateKeySet, KeyHandler.getByKeyIDRetry]
          rcases hlk2 : lookupKeyID ks2 keyID with _ | k2 <;> simp [hlk2]
      · simp
    · simp [hlk]

/-- C2 witness: an empty cache misses on `"k"`; refreshing from a set that
holds `"k"` does exactly one refresh and returns the key. -/
theorem c2_cache_miss_single_refresh_witness :
    lookupKeyID (({ keySet := [] } : KeyHandler)).keySet "k".toList = none
    ∧ (KeyHandler.getByKeyID { keySet := [] } (some ["k".toList]) "k".toList false).2.2 = 1
    ∧ (KeyHandler.getByKeyID { keySet := [] } (some ["k".toList]) "k".toList false).1
        = .ok "k".toList :=
  ⟨by decide,
    (c2_cache_miss_single_refresh { keySet := [] } ["k".toList] "k".toList (by decide)).1,
    (c2_cache_miss_single_refresh { keySet := [] } ["k".toList] "k".toList (by decide)).2.2.1
      "k".toList (by decide)⟩

/-- C3: a token carrying two or more signature blocks is rejected with the
ambiguous-signature error at header parsing, whatever the validity of any
signature (`jwtResult` is arbitrary), and key resolution is never reached
(the second component is `false`). -/
theorem c3_multi_signature_rejected_before_key_resolution
    (config : OIDCConfig) (h : KeyHandler) (fetch : Option (List Str))
    (msg : JwsMessage) (jwtResult : Str → Option TokenClaims) (now : Int)
    (hmulti : 2 ≤ msg.signatures.length) :
    config.parseToken h fetch (.parsed msg jwtResult) now
      = (.error .ambiguousSignature, false) := by
  apply parseToken_keyID_error
  unfold getKeyIDFromTokenString
  rw [getHeaders_multi_sig msg jwtResult hmulti]

/-- C3 witness: a concrete two-signature token (whose single-key verifier
would even accept it) is rejected with the ambiguous-signature error and key
resolution is not attempted. -/
theorem c3_multi_signature_rejected_before_key_resolution_witness :
    OIDCConfig.parseToken
      { issuer := "iss".toList, requiredTokenType := [], requiredAudience := [],
        allowedTokenDrift := 10 }
      { keySet := ["k1".toList] } none
      (.parsed
        { signatures :=
            [{ protectedHeaders := some { keyID := "k1".toList, typ := "JWT".toList } },
             { protectedHeaders := some { keyID := "k1".toList, typ := "JWT".toList } }] }
        (fun _ => some { expiration := 1000, issuer := "iss".toList, audience := [] }))
      100
    = (.error .ambiguousSignature, false) :=
  c3_multi_signature_rejected_before_key_resolution _ _ _ _ _ _ (by decide)

/-- The extraction loop, started in any state, stops at the first found token:
the extractors before it all failed, it sets `auth` and clears the error, and
only the extractors up to and including it are consulted. -/
theorem extractLoopAux_first_some (pre : List (Option Str)) (tok : Str)
    (post : List (Option Str)) (auth : Str) (err : Option OidcError)
    (hpre : ∀ r ∈ pre, r = none) :
    extractLoopAux auth err (pre ++ some tok :: post) = (tok, none, pre.length + 1) := by
  induction pre generalizing auth err with
  | nil => rfl
  | cons r rest ih =>
    have hr : r = none := hpre r (by simp)
    subst hr
    simp only [List.cons_append, extractLoopAux, List.append_eq]
    rw [ih [] (some .tokenMissing) (fun x hx => hpre x (by simp [hx]))]
    simp [List.length_cons]

/-- The extraction loop, started in any state, on a non-empty run of failing
extractors: every extractor is consulted and the loop ends with an empty
`auth` and the missing-token error. -/
theorem extractLoopAux_all_none (results : List (Option Str)) (auth : Str)
    (err : Option OidcError) (hne : results ≠ [])
    (hall : ∀ r ∈ results, r = none) :
    extractLoopAux auth err results = ([], some .tokenMissing, results.length) := by
  induction results generalizing auth err with
  | nil => exact absurd rfl hne
  | cons r rest ih =>
    have hr : r = none := hall r (by simp)
    subst hr
    rcases hrest : rest with _ | ⟨r2, rest2⟩
    · rfl
    · rw [← hrest]
      simp only [extractLoopAux]
      rw [ih [] (some .tokenMissing) (by rw [hrest]; simp)
        (fun x hx => hall x (by simp [hx]))]
      simp

/-- C4: extractors are consulted in configured order; the first that reports a
token wins (the ones before it all failed, the ones after it are not
consulted), the winning value is handed to token validation; and when every
extractor fails, the request fails with the missing-token error. -/
theorem c4_extractor_order_first_wins
    (config : OIDCConfig) (kh : KeyHandler) (fetch : Option (List Str))
    (specs specs2 : List ExtractorSpec) (req req2 : Request)
    (tokenOf : Str → TokenString) (now : Int)
    (pre post : List (Option Str)) (tok : Str)
    (hpre : ∀ r ∈ pre, r = none)
    (hmap : specs.map (fun s => runExtractor s req) = pre ++ some tok :: post)
    (hall : ∀ s ∈ specs2, runExtractor s req2 = none)
    (hne : specs2 ≠ []) :
    extractLoop (pre ++ some tok :: post) = (tok, none, pre.length + 1)
    ∧ handleRequest config kh fetch specs req tokenOf now
        = (config.parseToken kh fetch (tokenOf tok) now).1
    ∧ handleRequest config kh fetch specs2 req2 tokenOf now = .error .tokenMissing := by
  have hloop : extractLoop (pre ++ some tok :: post) = (tok, none, pre.length + 1) :=
    extractLoopAux_first_some pre tok post [] none hpre
  refine ⟨hloop, ?_, ?_⟩
  · unfold handleRequest
    rw [hmap, hloop]
  · have hmapall : ∀ r ∈ specs2.map (fun s => runExtractor s req2), r = none := by
      intro r hr
      rcases List.mem_map.mp hr with ⟨s, hs, hrs⟩
      rw [← hrs]
      exact hall s hs
    have hmapne : specs2.map (fun s => runExtractor s req2) ≠ [] := by
      simpa using hne
    unfold handleRequest
    rw [show extractLoop (specs2.map fun s => runExtractor s req2)
          = ([], some .tokenMissing, (specs2.map fun s => runExtractor s req2).length)
        from extractLoopAux_all_none _ [] none hmapne hmapall]

/-- C4 witness: the chain `header:Authorization,query:token`, a request with a
good header token and a present (invalid) query token: the header wins after
one consultation, the handler validates the header value; a second request
with only a failing extractor yields the missing-token error. -/
theorem c4_extractor_order_first_wins_witness :
    extractLoop ([] ++ some "abc".toList :: [some "bad".toList])
      = ("abc".toList, none, 0 + 1)
    ∧ handleRequest
        { issuer := "iss".toList, requiredTokenType := [], requiredAudience := [],
          allowedTokenDrift := 10 }
        { keySet := [] } none
        [.header "Authorization".toList "Bearer".toList, .query "token".toList]
        { header := fun _ => "Bearer abc".toList, queryParam := fun _ => "bad".toList,
          pathParam := fun _ => [], cookie := fun _ => none, formValue := fun _ => [] }
        (fun _ => .unparsable) 100
      = (OIDCConfig.parseToken
          { issuer := "iss".toList, requiredTokenType := [], requiredAudience := [],
            allowedTokenDrift := 10 }
          { keySet := [] } none (.unparsable) 100).1
    ∧ handleRequest
        { issuer := "iss".toList, requiredTokenType := [], requiredAudience := [],
          allowedTokenDrift := 10 }
        { keySet := [] } none
        [.query "token".toList]
        { header := fun _ => [], queryParam := fun _ => [],
          pathParam := fun _ => [], cookie := fun _ => none, formValue := fun _ => [] }
        (fun _ => .unparsable) 100
      = .error .tokenMissing :=
  c4_extractor_order_first_wins _ _ _ _ _ _ _ _ _ [] [some "bad".toList] "abc".toList
    (by intro r hr; simp at hr)
    (by rfl)
    (by intro s hs; rw [List.mem_singleton] at hs; subst hs; rfl)
    (by simp)

/-- The defaulting tail of setup fails at key-handler initialisation when the
key-set fetch for the configured JWKS URI fails. -/
theorem finishSetup_fetch_error (config : OIDCSetupConfig)
    (jwksFetch : Str → Option (List Str)) (hf : jwksFetch config.jwksUri = none) :
    finishSetup config jwksFetch = .error .keyHandlerInitFailed := by
  simp [finishSetup, newKeyHandler, KeyHandler.updateKeySet, hf]

/-- C5: configuration fails fast — `setupOIDC` refuses to produce a ready
middleware (it yields a `ConfigPanic`, a type separate from the per-request
`OidcError`) — whenever the issuer is empty, or no JWKS URI is configured and
the discovery document cannot be fetched or parsed (whatever the discovery
URI), or the initial key-set fetch fails (whatever the JWKS URI). -/
theorem c5_construction_fails_fast (config : OIDCSetupConfig)
    (discoveryHttp : Str → Except Unit DiscoveryBody)
    (jwksFetch : Str → Option (List Str))
    (hfail : config.issuer = []
      ∨ (config.jwksUri = []
          ∧ ∀ uri, ∃ e, getJwksUriFromDiscoveryUri (discoveryHttp uri) = .error e)
      ∨ (∀ uri, jwksFetch uri = none)) :
    ∃ e, setupOIDC config discoveryHttp jwksFetch = .error e := by
  by_cases hiss : config.issuer = []
  · exact ⟨.missingIssuer, by unfold setupOIDC; rw [if_pos hiss]⟩
  rcases hfail with h1 | ⟨hjw, hdisc⟩ | hfetch
  · exact absurd h1 hiss
  · simp only [setupOIDC, if_neg hiss]
    generalize hc2 : (if config.discoveryUri = [] then
        { config with discoveryUri := getDiscoveryUriFromIssuer config.issuer }
      else config) = c2
    have hjw2 : c2.jwksUri = [] := by
      rw [← hc2]
      by_cases hdu : config.discoveryUri = [] <;> simp [hdu, hjw]
    rw [if_pos hjw2]
    obtain ⟨e, he⟩ := hdisc c2.discoveryUri
    rw [he]
    exact ⟨.jwksUriFetchFailed, rfl⟩
  · simp only [setupOIDC, if_neg hiss]
    generalize hc2 : (if config.discoveryUri = [] then
        { config with discoveryUri := getDiscoveryUriFromIssuer config.issuer }
      else config) = c2
    by_cases hjw2 : c2.jwksUri = []
    · rw [if_pos hjw2]
      rcases hd : getJwksUriFromDiscoveryUri (discoveryHttp c2.discoveryUri) with e | u
      · exact ⟨.jwksUriFetchFailed, rfl⟩
      · exact ⟨.keyHandlerInitFailed, finishSetup_fetch_error _ _ (by simp [hfetch])⟩
    · rw [if_neg hjw2]
      exact ⟨.keyHandlerInitFailed, finishSetup_fetch_error _ _ (hfetch _)⟩

/-- C5 witness: an empty issuer makes setup fail before any request handling,
whatever the network would have answered. -/
theorem c5_construction_fails_fast_witness :
    ∃ e, setupOIDC
      { contextKey := [], tokenLookup := [], authScheme := [], issuer := [],
        discoveryUri := [], jwksUri := [], requiredTokenType := [],
        requiredAudience := [], jwksFetchTimeout := 0, allowedTokenDrift := 0 }
      (fun _ => .ok (.json "u".toList [])) (fun _ => some []) = .error e :=
  c5_construction_fails_fast _ _ _ (.inl rfl)

/-- C6: the discovery fetch returns exactly the `jwks_uri` field of the JSON
body and fails classified: network (or timeout) failure, unparsable JSON, or
an empty `jwks_uri`; all other fields of the document are irrelevant (they are
quantified away in every case). -/
theorem c6_discovery_fetch_classified (resp : Except Unit DiscoveryBody) :
    (∀ e, resp = .error e → getJwksUriFromDiscoveryUri resp = .error .network)
    ∧ (resp = .ok .invalidJson → getJwksUriFromDiscoveryUri resp = .error .invalidJson)
    ∧ (∀ otherFields, resp = .ok (.json [] otherFields) →
        getJwksUriFromDiscoveryUri resp = .error .emptyJwksUri)
    ∧ (∀ jwksUri otherFields, resp = .ok (.json jwksUri otherFields) → jwksUri ≠ [] →
        getJwksUriFromDiscoveryUri resp = .ok jwksUri) := by
  refine ⟨?_, ?_, ?_, ?_⟩
  · intro e he; subst he; rfl
  · intro he; subst he; rfl
  · intro otherFields he; subst he; rfl
  · intro jwksUri otherFields he hne
    subst he
    simp [getJwksUriFromDiscoveryUri, hne]

/-- C6 witness: a response whose body carries a non-empty `jwks_uri` next to
an ignored extra field yields that URI. -/
theorem c6_discovery_fetch_classified_witness :
    getJwksUriFromDiscoveryUri
      (.ok (.json "u".toList [("issuer".toList, "x".toList)])) = .ok "u".toList :=
  (c6_discovery_fetch_classified _).2.2.2 "u".toList [("issuer".toList, "x".toList)]
    rfl (by decide)

/-- C7: once key-id extraction, the (possibly vacuous) type check, key
resolution, signature verification, the expiration check and the issuer check
pass, a configured required audience admits the token exactly when it occurs
in the token's audience list and otherwise rejects with the audience-mismatch
error; with no required audience configured the token is accepted with no
look at the audience list (the claims, list included, are arbitrary). -/
theorem c7_required_audience_membership
    (config : OIDCConfig) (kh : KeyHandler) (fetch : Option (List Str))
    (auth : TokenString) (now : Int) (keyID key : Str) (claims : TokenClaims)
    (hkid : getKeyIDFromTokenString auth = .ok keyID)
    (htype : config.requiredTokenType = []
      ∨ getTokenTypeFromTokenString auth = .ok config.requiredTokenType)
    (hkey : (KeyHandler.getByKeyID kh fetch keyID false).1 = .ok key)
    (hjwt : auth.jwtParse key = some claims)
    (hexp : ¬(claims.expiration - config.allowedTokenDrift < now))
    (hiss : config.issuer = claims.issuer) :
    (config.requiredAudience ≠ [] →
      ((config.parseToken kh fetch auth now).1 = .ok claims
          ↔ config.requiredAudience ∈ claims.audience)
      ∧ (config.requiredAudience ∉ claims.audience →
          (config.parseToken kh fetch auth now).1 = .error .audienceMismatch))
    ∧ (config.requiredAudience = [] →
        (config.parseToken kh fetch auth now).1 = .ok claims) := by
  have hmain : (config.parseToken kh fetch auth now).1
      = if config.requiredAudience = [] then .ok claims
        else if config.requiredAudience ∈ claims.audience then .ok claims
        else .error .audienceMismatch := by
    unfold OIDCConfig.parseToken
    rw [hkid]
    have htc : (if config.requiredTokenType ≠ [] then
        match getTokenTypeFromTokenString auth with
        | .error e => .error e
        | .ok tokenType =>
          if tokenType ≠ config.requiredTokenType then .error .tokenTypeMismatch
          else .ok ()
      else .ok ()) = (.ok () : Except OidcError Unit) := by
      by_cases hrt : config.requiredTokenType = []
      · simp [hrt]
      · rcases htype with h | h
        · exact absurd h hrt
        · simp [hrt, h]
    simp only [hkid, htc, hkey, hjwt, if_neg hexp, hiss, audienceFold_eq_mem,
      Bool.false_or]
    by_cases hra : config.requiredAudience = []
    · simp [hra]
    · by_cases hmem : config.requiredAudience ∈ claims.audience
      · simp [hra, hmem]
      · simp [hra, hmem]
  constructor
  · intro hra
    constructor
    · rw [hmain, if_neg hra]
      by_cases hmem : config.requiredAudience ∈ claims.audience
      · simp [hmem]
      · simp [hmem]
    · intro hmem
      rw [hmain, if_neg hra, if_neg hmem]
  · intro hra
    rw [hmain, if_pos hra]

/-- C7 witness: with required audience `"aud"`, a token carrying audience list
`["x", "aud"]` that passes every earlier check is accepted. -/
theorem c7_required_audience_membership_witness :
    (OIDCConfig.parseToken
        { issuer := "iss".toList, requiredTokenType := [],
          requiredAudience := "aud".toList, allowedTokenDrift := 10 }
        { keySet := ["k1".toList] } none
        (.parsed
          { signatures :=
              [{ protectedHeaders := some { keyID := "k1".toList, typ := "JWT".toList } }] }
          (fun _ => some { expiration := 1000, issuer := "iss".toList,
                           audience := ["x".toList, "aud".toList] }))
        100).1
      = .ok { expiration := 1000, issuer := "iss".toList,
              audience := ["x".toList, "aud".toList] } :=
  ((c7_required_audience_membership
      { issuer := "iss".toList, requiredTokenType := [],
        requiredAudience := "aud".toList, allowedTokenDrift := 10 }
      { keySet := ["k1".toList] } none
      (.parsed
        { signatures :=
            [{ protectedHeaders := some { keyID := "k1".toList, typ := "JWT".toList } }] }
        (fun _ => some { expiration := 1000, issuer := "iss".toList,
                         audience := ["x".toList, "aud".toList] }))
      100 "k1".toList "k1".toList
      { expiration := 1000, issuer := "iss".toList,
        audience := ["x".toList, "aud".toList] }
      rfl (.inl rfl) rfl rfl (by decide) rfl).1 (by decide)).1.mpr (by decide)

/-- Go's `strings.TrimSuffix` with a one-symbol suffix removes a single
trailing occurrence of that symbol. -/
theorem trimSuffix_single (s : Str) (c : Char) :
    trimSuffix s [c] = if s.getLast? = some c then s.dropLast else s := by
  induction s using List.reverseRecOn with
  | nil => rfl
  | append_singleton as a _ =>
    have hlen : (as ++ [a]).length = as.length + 1 := by simp
    have hdrop : (as ++ [a]).drop ((as ++ [a]).length - 1) = [a] := by
      rw [hlen]
      simp [List.drop_left]
    have htake : (as ++ [a]).take ((as ++ [a]).length - 1) = as := by
      rw [hlen]
      simp [List.take_left]
    have hlast : (as ++ [a]).getLast? = some a := by
      simp [List.getLast?_concat]
    by_cases hac : a = c
    · subst hac
      simp [trimSuffix, hasSuffix, hlen, hdrop, htake, hlast]
    · have hne : ¬([a] = [c]) := by simp [hac]
      simp [trimSuffix, hasSuffix, hlen, hdrop, htake, hlast, hac, hne]

/-- C8: the discovery URL is the issuer, with one trailing slash removed when
present, concatenated with the well-known path — a pure string computation,
with no other transformation of the issuer. -/
theorem c8_discovery_uri_from_issuer (issuer : Str) :
    getDiscoveryUriFromIssuer issuer
      = (if issuer.getLast? = some '/' then issuer.dropLast else issuer)
          ++ wellKnownPath := by
  unfold getDiscoveryUriFromIssuer
  rw [show "/".toList = ['/'] from rfl, trimSuffix_single]

/-- A token-lookup entry whose source kind is none of the five recognised
kinds falls through the compilation `switch`: no extractor, no error. -/
theorem compileExtractors_skip (authScheme kind name : Str)
    (rest : List (Str × Str))
    (hkind : kind ∉ ["query".toList, "param".toList, "cookie".toList,
      "form".toList, "header".toList]) :
    compileExtractors authScheme ((kind, name) :: rest)
      = compileExtractors authScheme rest := by
  have h1 : ¬kind = "query".toList := fun h => hkind (by rw [h]; simp)
  have h2 : ¬kind = "param".toList := fun h => hkind (by rw [h]; simp)
  have h3 : ¬kind = "cookie".toList := fun h => hkind (by rw [h]; simp)
  have h4 : ¬kind = "form".toList := fun h => hkind (by rw [h]; simp)
  have h5 : ¬kind = "header".toList := fun h => hkind (by rw [h]; simp)
  simp only [compileExtractors]
  rw [if_neg h1, if_neg h2, if_neg h3, if_neg h4, if_neg h5]

/-- A token-lookup list of only unrecognised kinds compiles to no extractors
at all. -/
theorem compileExtractors_nil_of_unknown (authScheme : Str)
    (entries : List (Str × Str))
    (hentries : ∀ e ∈ entries, e.1 ∉ ["query".toList, "param".toList,
      "cookie".toList, "form".toList, "header".toList]) :
    compileExtractors authScheme entries = [] := by
  induction entries with
  | nil => rfl
  | cons e rest ih =>
    obtain ⟨kind, name⟩ := e
    rw [compileExtractors_skip authScheme kind name rest
      (hentries (kind, name) (List.mem_cons_self _ _))]
    exact ih (fun x hx => hentries x (by simp [hx]))

/-- C9: an entry with an unrecognised source kind is silently skipped at
configuration time; when every entry is unrecognised no extractor exists, the
extraction loop ends with no error and the empty token string, and the
request is rejected as a malformed token at header parsing — not with the
missing-token error. -/
theorem c9_unknown_source_kind_silently_skipped
    (authScheme kind name : Str) (rest entries : List (Str × Str))
    (config : OIDCConfig) (kh : KeyHandler) (fetch : Option (List Str))
    (req : Request) (tokenOf : Str → TokenString) (now : Int)
    (hkind : kind ∉ ["query".toList, "param".toList, "cookie".toList,
      "form".toList, "header".toList])
    (hentries : ∀ e ∈ entries, e.1 ∉ ["query".toList, "param".toList,
      "cookie".toList, "form".toList, "header".toList])
    (hempty : tokenOf [] = .unparsable) :
    compileExtractors authScheme ((kind, name) :: rest)
      = compileExtractors authScheme rest
    ∧ compileExtractors authScheme entries = []
    ∧ extractLoop ((compileExtractors authScheme entries).map
        (fun s => runExtractor s req)) = ([], none, 0)
    ∧ handleRequest config kh fetch (compileExtractors authScheme entries) req
        tokenOf now = .error .malformedToken
    ∧ OidcError.malformedToken ≠ OidcError.tokenMissing := by
  have hnil := compileExtractors_nil_of_unknown authScheme entries hentries
  refine ⟨compileExtractors_skip authScheme kind name rest hkind, hnil, ?_, ?_,
    by decide⟩
  · rw [hnil]; rfl
  · rw [hnil]
    have hred : handleRequest config kh fetch [] req tokenOf now
        = (config.parseToken kh fetch (tokenOf []) now).1 := rfl
    rw [hred, hempty,
      parseToken_keyID_error config kh fetch .unparsable now .malformedToken rfl]

/-- C9 witness: the lookup list `body:token` compiles to no extractors and the
request is rejected as malformed, not as missing. -/
theorem c9_unknown_source_kind_silently_skipped_witness :
    compileExtractors "Bearer".toList
        [("body".toList, "token".toList), ("query".toList, "q".toList)]
      = compileExtractors "Bearer".toList [("query".toList, "q".toList)]
    ∧ compileExtractors "Bearer".toList [("body".toList, "token".toList)] = []
    ∧ extractLoop ((compileExtractors "Bearer".toList
        [("body".toList, "token".toList)]).map (fun s => runExtractor s
          { header := fun _ => [], queryParam := fun _ => [],
            pathParam := fun _ => [], cookie := fun _ => none,
            formValue := fun _ => [] })) = ([], none, 0)
    ∧ handleRequest
        { issuer := "iss".toList, requiredTokenType := [], requiredAudience := [],
          allowedTokenDrift := 10 }
        { keySet := [] } none
        (compileExtractors "Bearer".toList [("body".toList, "token".toList)])
        { header := fun _ => [], queryParam := fun _ => [],
          pathParam := fun _ => [], cookie := fun _ => none,
          formValue := fun _ => [] }
        (fun _ => .unparsable) 100 = .error .malformedToken
    ∧ OidcError.malformedToken ≠ OidcError.tokenMissing :=
  c9_unknown_source_kind_silently_skipped "Bearer".toList "body".toList
    "token".toList [("query".toList, "q".toList)]
    [("body".toList, "token".toList)]
    { issuer := "iss".toList, requiredTokenType := [], requiredAudience := [],
      allowedTokenDrift := 10 }
    { keySet := [] } none
    { header := fun _ => [], queryParam := fun _ => [],
      pathParam := fun _ => [], cookie := fun _ => none,
      formValue := fun _ => [] }
    (fun _ => .unparsable) 100
    (by decide) (by decide) rfl

/-- C10: the header extractor succeeds on any value longer than the scheme
plus one symbol whose prefix is the scheme, returning the value with the
scheme and exactly one following symbol removed — the separator symbol `sep`
is arbitrary, never required to be a space — and reports not-found for any
shorter value or any value whose prefix is not the scheme. -/
theorem c10_header_scheme_strip
    (name authScheme rest : Str) (sep : Char) (req reqShort reqNoMatch : Request)
    (hval : req.header name = authScheme ++ sep :: rest)
    (hrest : rest ≠ [])
    (hshort : (reqShort.header name).length ≤ authScheme.length + 1)
    (hnomatch : (reqNoMatch.header name).take authScheme.length ≠ authScheme) :
    jwtFromHeader name authScheme req = some rest
    ∧ jwtFromHeader name authScheme reqShort = none
    ∧ jwtFromHeader name authScheme reqNoMatch = none := by
  refine ⟨?_, ?_, ?_⟩
  · have hlen : (authScheme ++ sep :: rest).length > authScheme.length + 1 := by
      simp only [List.length_append, List.length_cons]
      have := List.length_pos.mpr hrest
      omega
    have htake : (authScheme ++ sep :: rest).take authScheme.length = authScheme :=
      List.take_left authScheme _
    have hdrop : (authScheme ++ sep :: rest).drop (authScheme.length + 1) = rest := by
      have hsplit : authScheme ++ sep :: rest = (authScheme ++ [sep]) ++ rest := by
        simp
      have hl : (authScheme ++ [sep]).length = authScheme.length + 1 := by simp
      rw [hsplit, ← hl]
      exact List.drop_left _ _
    unfold jwtFromHeader
    simp only [hval]
    rw [if_pos ⟨hlen, htake⟩, hdrop]
  · unfold jwtFromHeader
    rw [if_neg]
    rintro ⟨h1, -⟩
    omega
  · unfold jwtFromHeader
    rw [if_neg]
    rintro ⟨-, h2⟩
    exact hnomatch h2

/-- C10 witness: `"BearerXabc"` (separator `'X'`, not a space) yields `"abc"`
under scheme `"Bearer"`; `"Bearer "` is too short and `"Basic abc"` does not
start with the scheme, both not-found. -/
theorem c10_header_scheme_strip_witness :
    jwtFromHeader "Authorization".toList "Bearer".toList
      { header := fun _ => "BearerXabc".toList, queryParam := fun _ => [],
        pathParam := fun _ => [], cookie := fun _ => none,
        formValue := fun _ => [] } = some "abc".toList
    ∧ jwtFromHeader "Authorization".toList "Bearer".toList
      { header := fun _ => "Bearer ".toList, queryParam := fun _ => [],
        pathParam := fun _ => [], cookie := fun _ => none,
        formValue := fun _ => [] } = none
    ∧ jwtFromHeader "Authorization".toList "Bearer".toList
      { header := fun _ => "Basic abc".toList, queryParam := fun _ => [],
        pathParam := fun _ => [], cookie := fun _ => none,
        formValue := fun _ => [] } = none :=
  c10_header_scheme_strip "Authorization".toList "Bearer".toList "abc".toList 'X'
    { header := fun _ => "BearerXabc".toList, queryParam := fun _ => [],
      pathParam := fun _ => [], cookie := fun _ => none,
      formValue := fun _ => [] }
    { header := fun _ => "Bearer ".toList, queryParam := fun _ => [],
      pathParam := fun _ => [], cookie := fun _ => none,
      formValue := fun _ => [] }
    { header := fun _ => "Basic abc".toList, queryParam := fun _ => [],
      pathParam := fun _ => [], cookie := fun _ => none,
      formValue := fun _ => [] }
    (by decide) (by decide) (by decide) (by decide)
